import Mathlib

/-!
Shallow embedding of the fluxpoint webhook dispatcher worker
(packages/core: dispatcher delivery pipeline, webhook store client,
dispatcher config) together with proofs about the spec's claims.

The pipeline source composes Effect programs; here every step is embedded
as a pure Lean function.  The target endpoint and the store endpooint are
modelled as oracles indexed by the call number, so a delivery trace is a
pure function of the oracle.
-/

namespace Fluxpoint

/-- Outcome of a delivery, `ReportOutcome` in the api package. -/
inductive ReportOutcome
  | delivered
  | retry
  | dead
deriving DecidableEq, Repr

/-- Error kind recorded in an attempt, `WebhookAttemptErrorKind` in the api package. -/
inductive WebhookAttemptErrorKind
  | timeout
  | network
  | invalid_response
  | unexpected
deriving DecidableEq, Repr

/-- A response-header value as seen from JS: either a string or some other
runtime value (`buildAttempt` keeps only string values). -/
inductive HeaderValue
  | str (s : String)
  | other
deriving DecidableEq, Repr

/-- The observable part of an `HttpClientResponse`: status, headers and the
result of reading the body as text (`none` models a body-read failure,
which the source swallows with `Effect.orElseSucceed(() => null)`). -/
structure HttpResponse where
  status : Int
  headers : List (String × HeaderValue)
  bodyText : Option String
deriving DecidableEq, Repr

/-- The error channel of the settled delivery result:
`HttpClientError.HttpClientError | { _tag : TimeoutException }`.
`RequestError` and `ResponseError` are the two `HttpClientError` tags;
`ResponseError` carries the response whose status `isRetryableFailure`
inspects. -/
inductive DeliveryError
  | RequestError
  | ResponseError (response : HttpResponse)
  | TimeoutException
deriving DecidableEq, Repr

/-- `DeliveryResult = Either<HttpClientResponse, HttpClientError | TimeoutException>`. -/
inductive DeliveryResult
  | ok (response : HttpResponse)
  | err (e : DeliveryError)
deriving DecidableEq, Repr

/-- The failure type of one `executeOnce` attempt:
`RetryableFailure = HttpClientError | TimeoutException | RetryableStatusError`. -/
inductive RetryableFailure
  | RequestError
  | ResponseError (response : HttpResponse)
  | TimeoutException
  | RetryableStatusError (response : HttpResponse)
deriving DecidableEq, Repr

/-- `isRetryableStatus`: `status >= 500 || status === 408 || status === 429`. -/
def isRetryableStatus (status : Int) : Bool :=
  status ≥ 500 || status == 408 || status == 429

/-- `classifyHttpStatus`: 2xx is delivered, retryable statuses retry, all else dead. -/
def classifyHttpStatus (status : Int) : ReportOutcome :=
  if status ≥ 200 ∧ status < 300 then .delivered
  else if isRetryableStatus status then .retry
  else .dead

/-- `resolveOutcome`: a response is classified by status; a failure is dead
when the lifetime attempt count is exhausted, otherwise retry. -/
def resolveOutcome (result : DeliveryResult) (currentAttempts maxAttempts : Int) :
    ReportOutcome :=
  match result with
  | .ok response => classifyHttpStatus response.status
  | .err _ => if currentAttempts + 1 ≥ maxAttempts then .dead else .retry

/-- `classifyError` over the settled error channel. -/
def classifyError (error : DeliveryError) : WebhookAttemptErrorKind :=
  match error with
  | .TimeoutException => .timeout
  | .RequestError => .network
  | .ResponseError _ => .invalid_response

/-- `isRetryableFailure`: timeouts, retryable-status sentinels and transport
errors always retry; a `ResponseError` retries only on a retryable status. -/
def isRetryableFailure (error : RetryableFailure) : Bool :=
  match error with
  | .TimeoutException => true
  | .RetryableStatusError _ => true
  | .RequestError => true
  | .ResponseError response => isRetryableStatus response.status

/-- Injection of the settled error channel into `RetryableFailure`
(the settled channel is the subset without `RetryableStatusError`). -/
def deliveryErrorAsFailure : DeliveryError → RetryableFailure
  | .RequestError => .RequestError
  | .ResponseError r => .ResponseError r
  | .TimeoutException => .TimeoutException

/-- `isRetryableResult`: a response is retryable by status; a failure goes
through `isRetryableFailure` (timeouts short-circuit to true in the source,
which coincides with `isRetryableFailure` on timeouts). -/
def isRetryableResult (result : DeliveryResult) : Bool :=
  match result with
  | .ok response => isRetryableStatus response.status
  | .err error =>
    match error with
    | .TimeoutException => true
    | e => isRetryableFailure (deliveryErrorAsFailure e)

/-- The event nested in a `LeasedEvent` (fields the pipeline reads). -/
structure WebhookEventInfo where
  id : String
  headers : List (String × String)
  payload : String
  attempts : Int
deriving DecidableEq, Repr

/-- `LeasedEvent` (fields the pipeline reads). -/
structure LeasedEvent where
  event : WebhookEventInfo
  target_url : String
deriving DecidableEq, Repr

/-- `ReportAttempt` as constructed by `buildAttempt`. -/
structure ReportAttempt where
  started_at : String
  finished_at : String
  request_headers : List (String × String)
  request_body : String
  response_status : Option Int
  response_headers : Option (List (String × String))
  response_body : Option String
  error_kind : Option WebhookAttemptErrorKind
  error_message : Option String
deriving DecidableEq, Repr

/-- `String(error)` on the settled error channel: the exact rendering is
irrelevant to every claim, only that it is some string. -/
def deliveryErrorString : DeliveryError → String
  | .RequestError => "RequestError"
  | .ResponseError _ => "ResponseError"
  | .TimeoutException => "TimeoutException"

/-- The response-header filter in `buildAttempt`: keep exactly the entries
whose values are strings. -/
def responseStringHeaders (hs : List (String × HeaderValue)) :
    List (String × String) :=
  hs.filterMap fun kv =>
    match kv.2 with
    | .str s => some (kv.1, s)
    | .other => none

/-- `buildAttempt`: on a failure all response fields are null and the error
fields are classified; on a response the status/headers/body are captured and
the error fields are null. -/
def buildAttempt (result : DeliveryResult) (leased : LeasedEvent)
    (startedAt finishedAt : String) : ReportAttempt :=
  let base : ReportAttempt :=
    { started_at := startedAt
      finished_at := finishedAt
      request_headers := leased.event.headers
      request_body := leased.event.payload
      response_status := none
      response_headers := none
      response_body := none
      error_kind := none
      error_message := none }
  match result with
  | .err error =>
    { base with
      error_kind := some (classifyError error)
      error_message := some (match error with
        | .TimeoutException => "Request timed out"
        | e => deliveryErrorString e) }
  | .ok response =>
    { base with
      response_status := some response.status
      response_headers := some (responseStringHeaders response.headers)
      response_body := response.bodyText }

/-- What one target call can observe, as an oracle outcome: a response
delivered within the timeout, the timeout firing, or a transport error. -/
inductive AttemptOutcome
  | response (r : HttpResponse)
  | timeout
  | requestError
  | responseError (r : HttpResponse)
deriving DecidableEq, Repr

/-- `executeOnce`: run one target call; a response with retryable status is
turned into a `RetryableStatusError` failure, the timeout into the timeout
sentinel. -/
def executeOnce (target : Nat → AttemptOutcome) (i : Nat) :
    Except RetryableFailure HttpResponse :=
  match target i with
  | .response r =>
    if isRetryableStatus r.status then .error (.RetryableStatusError r) else .ok r
  | .timeout => .error .TimeoutException
  | .requestError => .error .RequestError
  | .responseError r => .error (.ResponseError r)

/-- The in-process retry loop of `deliverOne`:
`Effect.retry` with `Schedule.recurs(immediateRetryMax)` intersected with the
exponential schedule and `Schedule.whileInput(isRetryableFailure)`.
Returns the last attempt result and the number of target calls made.
`retries` is the number of retries still allowed, `i` the call index. -/
def runDelivery (target : Nat → AttemptOutcome) :
    Nat → Nat → Except RetryableFailure HttpResponse × Nat
  | retries, i =>
    match executeOnce target i with
    | .ok r => (.ok r, 1)
    | .error e =>
      match retries with
      | 0 => (.error e, 1)
      | n + 1 =>
        if isRetryableFailure e then
          let rest := runDelivery target n (i + 1)
          (rest.1, rest.2 + 1)
        else (.error e, 1)

/-- The `Effect.catchAll` after the retry: a `RetryableStatusError` becomes a
successful result carrying its response, everything else stays a failure. -/
def settleResult : Except RetryableFailure HttpResponse → DeliveryResult
  | .ok r => .ok r
  | .error (.RetryableStatusError r) => .ok r
  | .error .TimeoutException => .err .TimeoutException
  | .error .RequestError => .err .RequestError
  | .error (.ResponseError r) => .err (.ResponseError r)

/-- The dispatcher config record (fields the pipeline reads). -/
structure DispatcherConfigService where
  workerId : String
  immediateRetryMax : Nat
  maxAttempts : Int
deriving DecidableEq, Repr

/-- `ReportRequest` as assembled by `deliverOne`. -/
structure ReportRequest where
  worker_id : String
  event_id : String
  outcome : ReportOutcome
  next_attempt_at : Option String
  retryable : Bool
  attempt : ReportAttempt
deriving DecidableEq, Repr

/-- The settled final result of the retry pipeline for one delivery. -/
def deliveryFinalResult (config : DispatcherConfigService)
    (target : Nat → AttemptOutcome) : DeliveryResult :=
  settleResult (runDelivery target config.immediateRetryMax 0).1

/-- Number of target calls one delivery makes. -/
def deliveryCallCount (config : DispatcherConfigService)
    (target : Nat → AttemptOutcome) : Nat :=
  (runDelivery target config.immediateRetryMax 0).2

/-- `deliverOne` up to the emitted report: execute with retries, settle the
result, build the attempt record and assemble the report. -/
def deliverOneReport (config : DispatcherConfigService) (leased : LeasedEvent)
    (target : Nat → AttemptOutcome) (startedAt finishedAt : String) :
    ReportRequest :=
  let result := deliveryFinalResult config target
  { worker_id := config.workerId
    event_id := leased.event.id
    outcome := resolveOutcome result leased.event.attempts config.maxAttempts
    next_attempt_at := none
    retryable := isRetryableResult result
    attempt := buildAttempt result leased startedAt finishedAt }

/-! ### Retry timing

The per-event retry schedule in `deliverOne` is
`Schedule.exponential(Duration.millis(1000))` intersected with
`Schedule.recurs(immediateRetryMax)` and gated by
`Schedule.whileInput(isRetryableFailure)`.  `Schedule.exponential(base)`
sleeps `base * 2^n` before output `n` (n starting at 0); `recurs` adds no
delay and `intersect` takes the maximum of the two delays, so the wait
before retry `k` (k starting at 1) is exactly `1000 * 2^(k-1)` ms.  No
randomness enters the schedule. -/

/-- Delay of `Schedule.exponential(baseMs)` before repetition `n` (0-based). -/
def scheduleExponentialDelay (baseMs n : Nat) : Nat :=
  baseMs * 2 ^ n

/-- The wait the delivery engine performs before retry `k` (1-based), a
deterministic function of `k` alone. -/
def retryWaitMs (k : Nat) : Nat :=
  scheduleExponentialDelay 1000 (k - 1)

/-- `sleepWithJitter`: `jitterRange = Math.floor(baseMs * 0.2)` (which equals
`baseMs / 5` in natural-number division for every natural `baseMs`), jitter
drawn by `Random.nextIntBetween(-jitterRange, jitterRange + 1)`, i.e. a
uniform integer in `[-jitterRange, jitterRange]`, then sleep
`baseMs + jitter`.  This is the set of durations one call can sleep;
it is used by the dispatcher poll loop. -/
def sleepWithJitterCanSleep (baseMs : Nat) (d : Int) : Prop :=
  ∃ j : Int, -(baseMs / 5 : Nat) ≤ j ∧ j ≤ (baseMs / 5 : Nat) ∧ d = baseMs + j

/-- Written from the spec (for comparison with the source schedule): the
spec's claimed retry wait before retry `k` is
`base · 2^(k-1) ± jitter` with `base = 1000` and jitter a uniform integer in
`[-0.2 · base, +0.2 · base]` of the current base delay; so a duration `d` is
one the spec says the engine can wait iff it lies in that band. -/
def specRetryWaitBand (k : Nat) (d : Int) : Prop :=
  let base : Int := 1000 * 2 ^ (k - 1)
  base - base / 5 ≤ d ∧ d ≤ base + base / 5

instance (k : Nat) (d : Int) : Decidable (specRetryWaitBand k d) := by
  unfold specRetryWaitBand; exact instDecidableAnd

/-! ### Store client (webhookStore.ts, retryPolicy.ts, apiError.ts) -/

/-- `ApiErrorCode` from the api package. -/
inductive ApiErrorCode
  | validation
  | unauthorized
  | rate_limited
  | not_found
  | conflict
  | database
  | internal
deriving DecidableEq, Repr

/-- `ApiErrorResponse`: the decoded `{code, message}` error body. -/
structure ApiErrorResponse where
  code : ApiErrorCode
  message : String
deriving DecidableEq, Repr

/-- `CoreError = ApiError | NetworkError | ParseError`. -/
inductive CoreError
  | ApiError (apiError : ApiErrorResponse)
  | NetworkError (message : String)
  | ParseError (message : String)
deriving DecidableEq, Repr

/-- `isTransientApiError`: the three transient codes. -/
def isTransientApiError (err : ApiErrorResponse) : Bool :=
  err.code == .rate_limited || err.code == .database || err.code == .internal

/-- The retry predicate of `withTransientRetry`:
`err instanceof ApiError && isTransientApiError(err)`. -/
def transientRetryWhile (e : CoreError) : Bool :=
  match e with
  | .ApiError apiError => isTransientApiError apiError
  | _ => false

/-- Delay of `transientApiRetrySchedule`
(`Schedule.exponential(Duration.millis(100))` ∩ `Schedule.recurs(5)`)
before retry `k` (1-based). -/
def transientRetryDelayMs (k : Nat) : Nat :=
  scheduleExponentialDelay 100 (k - 1)

/-- The loop performed by `withTransientRetry` over a store-call oracle
(`call i` is the result of the `i`-th HTTP call, 0-based): retry while the
error satisfies `transientRetryWhile` and retries remain.  Returns the
surfaced result, the total number of calls, and the backoff delays slept
(in order). -/
def transientRetryLoop {A : Type} (call : Nat → Except CoreError A) :
    Nat → Nat → Except CoreError A × Nat × List Nat
  | retries, i =>
    match call i with
    | .ok a => (.ok a, 1, [])
    | .error e =>
      match retries with
      | 0 => (.error e, 1, [])
      | n + 1 =>
        if transientRetryWhile e then
          let rest := transientRetryLoop call n (i + 1)
          (rest.1, rest.2.1 + 1, transientRetryDelayMs (i + 1) :: rest.2.2)
        else (.error e, 1, [])

/-- `withTransientRetry` wraps every `lease`/`report` HTTP call with the
transient retry loop, allowing 5 retries (`Schedule.recurs(5)`). -/
def withTransientRetry {A : Type} (call : Nat → Except CoreError A) :
    Except CoreError A × Nat × List Nat :=
  transientRetryLoop call 5 0

/-! ### Config loading (dispatcherConfig.ts) -/

/-- Integer parsing as `Config.integer` accepts env values relevant here: an
optional sign followed by decimal digits.  (The effect library parses via
JS number semantics; on the plain decimal strings the claims exercise the
two agree, and a word like "nope" is rejected by both.) -/
def parseInteger (s : String) : Option Int :=
  let core (digits : List Char) : Option Nat :=
    if digits.isEmpty ∨ ¬ digits.all Char.isDigit then none
    else some (digits.foldl (fun acc c => acc * 10 + (c.toNat - 48)) 0)
  match s.data with
  | '-' :: rest => (core rest).map fun n => -(n : Int)
  | '+' :: rest => (core rest).map fun n => (n : Int)
  | chars => (core chars).map fun n => (n : Int)

/-- `ConfigError` outcome of config resolution. -/
inductive ConfigError
  | MissingData (name : String)
  | InvalidData (name : String)
deriving DecidableEq, Repr

/-- `Config.string(name)`: required string variable. -/
def configString (env : String → Option String) (name : String) :
    Except ConfigError String :=
  match env name with
  | some v => .ok v
  | none => .error (.MissingData name)

/-- `Config.option(Config.string(name))`: optional string variable. -/
def configOptionString (env : String → Option String) (name : String) :
    Option String :=
  env name

/-- `Config.integer(name).pipe(Config.withDefault(d))`: optional integer
variable; present but non-integer values are invalid. -/
def configIntegerWithDefault (env : String → Option String) (name : String)
    (dflt : Int) : Except ConfigError Int :=
  match env name with
  | none => .ok dflt
  | some s =>
    match parseInteger s with
    | some n => .ok n
    | none => .error (.InvalidData name)

/-- The full config record produced by `configFromEnv` / `DispatcherConfigLive`. -/
structure LoadedConfig where
  workerId : String
  internalApiBaseUrl : String
  internalApiToken : Option String
  pollIntervalMs : Int
  batchSize : Int
  concurrency : Int
  leaseMs : Int
  requestTimeoutMs : Int
  immediateRetryMax : Int
  maxAttempts : Int
deriving DecidableEq, Repr

/-- `configFromEnv`: resolve every variable; any missing required variable or
invalid integer fails the whole resolution (the source accumulates errors
with `Config.all`, which fails iff any field fails — the embedding
short-circuits, which agrees on success/failure). -/
def configFromEnv (env : String → Option String) :
    Except ConfigError LoadedConfig := do
  let workerId ← configString env "FLUXPOINT_WORKER_ID"
  let internalApiBaseUrl ← configString env "FLUXPOINT_RUST_API_BASE_URL"
  let internalApiToken := configOptionString env "FLUXPOINT_RUST_API_TOKEN"
  let pollIntervalMs ← configIntegerWithDefault env "FLUXPOINT_DISPATCH_POLL_INTERVAL_MS" 5000
  let batchSize ← configIntegerWithDefault env "FLUXPOINT_DISPATCH_BATCH_SIZE" 50
  let concurrency ← configIntegerWithDefault env "FLUXPOINT_DISPATCH_CONCURRENCY" 10
  let leaseMs ← configIntegerWithDefault env "FLUXPOINT_DISPATCH_LEASE_MS" 30000
  let requestTimeoutMs ← configIntegerWithDefault env "FLUXPOINT_DISPATCH_REQUEST_TIMEOUT_MS" 10000
  let immediateRetryMax ← configIntegerWithDefault env "FLUXPOINT_DISPATCH_IMMEDIATE_RETRY_MAX" 2
  let maxAttempts ← configIntegerWithDefault env "FLUXPOINT_DISPATCH_MAX_ATTEMPTS" 10
  return { workerId, internalApiBaseUrl, internalApiToken, pollIntervalMs,
           batchSize, concurrency, leaseMs, requestTimeoutMs,
           immediateRetryMax, maxAttempts }

/-! ### Outgoing target request (deliverOne, outReq) -/

/-- The observable parts of an outgoing `HttpClientRequest`. -/
structure OutgoingRequest where
  method : String
  url : String
  headers : List (String × String)
  body : Option String
deriving DecidableEq, Repr

/-- ASCII lowercase of a character (kernel-reducible). -/
def lowerChar (c : Char) : Char :=
  if 'A' ≤ c ∧ c ≤ 'Z' then Char.ofNat (c.toNat + 32) else c

/-- ASCII lowercase of a header name (kernel-reducible). -/
def lowerName (s : String) : String :=
  String.mk (s.data.map lowerChar)

/-- Case-insensitive presence of a header name. -/
def hasHeader (hs : List (String × String)) (name : String) : Bool :=
  hs.any fun kv => lowerName kv.1 == lowerName name

/-- Modelled from the spec: `HttpClientRequest.post(url)` — an empty POST
request (the combinator itself is `@effect/platform` library code, not part
of this repository's sources). -/
def requestPost (url : String) : OutgoingRequest :=
  { method := "POST", url := url, headers := [], body := none }

/-- Modelled from the spec: `HttpClientRequest.setHeaders` copies the given
headers onto the request verbatim. -/
def requestSetHeaders (hs : List (String × String)) (req : OutgoingRequest) :
    OutgoingRequest :=
  { req with headers := req.headers ++ hs }

/-- Modelled from the spec: `HttpClientRequest.bodyText(body, contentType)`
sets the raw text body; per the spec a `Content-Type` already present in the
request headers takes precedence, and only when absent does the given
default content type apply (the combinator is `@effect/platform` library
code, not part of this repository's sources). -/
def requestBodyText (body contentType : String) (req : OutgoingRequest) :
    OutgoingRequest :=
  { req with
    body := some body
    headers :=
      if hasHeader req.headers "content-type" then req.headers
      else req.headers ++ [("Content-Type", contentType)] }

/-- `outReq` in `deliverOne`: POST to the target with the event headers and
the payload as body, default content type `application/json`. -/
def outReq (leased : LeasedEvent) : OutgoingRequest :=
  requestBodyText leased.event.payload "application/json"
    (requestSetHeaders leased.event.headers (requestPost leased.target_url))

/-! ### Invariant predicates and concrete fixtures -/

/-- The attempt-record invariant of the spec: exactly one of
`response_status` and `error_kind` is non-null. -/
def exactlyOneStatusOrError (a : ReportAttempt) : Prop :=
  (a.response_status ≠ none ∧ a.error_kind = none) ∨
  (a.response_status = none ∧ a.error_kind ≠ none)

instance (a : ReportAttempt) : Decidable (exactlyOneStatusOrError a) := by
  unfold exactlyOneStatusOrError; exact instDecidableOr

/-- `isErr` on `Except`. -/
def isErr {ε α : Type} : Except ε α → Bool
  | .error _ => true
  | .ok _ => false

/-- A leased event whose headers carry a content type. -/
def leasedFix : LeasedEvent :=
  { event :=
      { id := "event-1"
        headers := [("content-type", "application/json")]
        payload := "payload-1"
        attempts := 0 }
    target_url := "https://target.example.test/webhook" }

/-- A leased event whose headers do not carry a content type. -/
def leasedNoContentType : LeasedEvent :=
  { event :=
      { id := "event-2"
        headers := [("x-signature", "abc")]
        payload := "payload-2"
        attempts := 0 }
    target_url := "https://target2.example.test/webhook" }

/-- A leased event at the lifetime attempt cap for `maxAttempts = 3`. -/
def leasedAtCap : LeasedEvent :=
  { event :=
      { id := "event-3"
        headers := [("content-type", "application/json")]
        payload := "payload-3"
        attempts := 2 }
    target_url := "https://target.example.test/webhook" }

/-- A 200 response fixture with one string and one non-string header value. -/
def resp200 : HttpResponse :=
  { status := 200
    headers := [("content-type", .str "text/plain"), ("x-multi", .other)]
    bodyText := some "OK" }

/-- A 303 response fixture. -/
def resp303 : HttpResponse :=
  { status := 303, headers := [], bodyText := some "see other" }

/-- A 404 response fixture. -/
def resp404 : HttpResponse :=
  { status := 404, headers := [], bodyText := some "not found" }

/-- Baseline config fixture. -/
def cfgFix : DispatcherConfigService :=
  { workerId := "w1", immediateRetryMax := 2, maxAttempts := 10 }

/-- Config for the retryable-status-exhausted scenario. -/
def cfg500 : DispatcherConfigService :=
  { workerId := "w1", immediateRetryMax := 2, maxAttempts := 5 }

/-- Config for the timeout-at-cap scenario. -/
def cfgTimeoutCap : DispatcherConfigService :=
  { workerId := "w1", immediateRetryMax := 0, maxAttempts := 3 }

/-- Target oracle answering 500 on every call, with the call index as body. -/
def target500 : Nat → AttemptOutcome := fun i =>
  .response { status := 500, headers := [], bodyText := some (Nat.repr i) }

/-- Store-call oracle failing with a `NetworkError` on every call. -/
def storeCallNetworkFail : Nat → Except CoreError Unit := fun _ =>
  .error (.NetworkError "net down")

/-- Store-call oracle failing with a transient `rate_limited` `ApiError` on
every call. -/
def storeCallRateLimited : Nat → Except CoreError Unit := fun _ =>
  .error (.ApiError { code := .rate_limited, message := "slow down" })

/-- The numeric environment variables parsed by `configFromEnv`. -/
def numericEnvNames : List String :=
  ["FLUXPOINT_DISPATCH_POLL_INTERVAL_MS", "FLUXPOINT_DISPATCH_BATCH_SIZE",
   "FLUXPOINT_DISPATCH_CONCURRENCY", "FLUXPOINT_DISPATCH_LEASE_MS",
   "FLUXPOINT_DISPATCH_REQUEST_TIMEOUT_MS",
   "FLUXPOINT_DISPATCH_IMMEDIATE_RETRY_MAX", "FLUXPOINT_DISPATCH_MAX_ATTEMPTS"]

/-- Environment with the required variables set and batch size zero. -/
def envBatchZero : String → Option String := fun name =>
  if name = "FLUXPOINT_WORKER_ID" then some "w1"
  else if name = "FLUXPOINT_RUST_API_BASE_URL" then some "http://localhost:3000"
  else if name = "FLUXPOINT_DISPATCH_BATCH_SIZE" then some "0"
  else none

/-- The config `envBatchZero` loads into. -/
def loadedBatchZero : LoadedConfig :=
  { workerId := "w1"
    internalApiBaseUrl := "http://localhost:3000"
    internalApiToken := none
    pollIntervalMs := 5000
    batchSize := 0
    concurrency := 10
    leaseMs := 30000
    requestTimeoutMs := 10000
    immediateRetryMax := 2
    maxAttempts := 10 }

/-- The empty environment. -/
def envEmpty : String → Option String := fun _ => none

/-- Environment with a non-integer batch size. -/
def envBadInteger : String → Option String := fun name =>
  if name = "FLUXPOINT_WORKER_ID" then some "w1"
  else if name = "FLUXPOINT_RUST_API_BASE_URL" then some "http://localhost:3000"
  else if name = "FLUXPOINT_DISPATCH_BATCH_SIZE" then some "nope"
  else none

/-! ### Helper lemmas -/

/-- `isRetryableStatus` characterised arithmetically. -/
lemma isRetryableStatus_eq_true_iff (s : Int) :
    isRetryableStatus s = true ↔ s = 408 ∨ s = 429 ∨ 500 ≤ s := by
  unfold isRetryableStatus
  simp only [Bool.or_eq_true, decide_eq_true_eq, beq_iff_eq]
  omega

/-- Decomposition of a successful `Except` bind. -/
lemma except_bind_ok {ε α β : Type} {x : Except ε α} {f : α → Except ε β}
    {b : β} (h : x.bind f = .ok b) : ∃ a, x = .ok a ∧ f a = .ok b := by
  cases x with
  | error e => simp [Except.bind] at h
  | ok a => exact ⟨a, rfl, by simpa [Except.bind] using h⟩

/-- The retry loop makes at most one more call than it has retries. -/
lemma runDelivery_calls_le (target : Nat → AttemptOutcome) :
    ∀ retries i, (runDelivery target retries i).2 ≤ retries + 1 := by
  intro retries
  induction retries with
  | zero =>
    intro i
    unfold runDelivery
    cases executeOnce target i <;> simp
  | succ n ih =>
    intro i
    unfold runDelivery
    cases executeOnce target i with
    | ok r => simp
    | error e =>
      by_cases hr : isRetryableFailure e = true
      · simp only [hr, if_true]
        have := ih (i + 1)
        omega
      · rw [Bool.not_eq_true] at hr
        simp [hr]

/-- The transient-retry loop makes at most one more call than it has
retries. -/
lemma transientRetryLoop_calls_le {A : Type} (call : Nat → Except CoreError A) :
    ∀ retries i, (transientRetryLoop call retries i).2.1 ≤ retries + 1 := by
  intro retries
  induction retries with
  | zero =>
    intro i
    unfold transientRetryLoop
    cases call i <;> simp
  | succ n ih =>
    intro i
    unfold transientRetryLoop
    cases call i with
    | ok a => simp
    | error e =>
      by_cases ht : transientRetryWhile e = true
      · simp only [ht, if_true]
        have := ih (i + 1)
        omega
      · rw [Bool.not_eq_true] at ht
        simp [ht]

/-! ### Claims -/

/-- C9: `classifyHttpStatus` maps statuses in [200,300) to `delivered`,
408/429/≥500 to `retry` and every other integer status to `dead`, and
`isRetryableStatus` is true exactly on the `retry` statuses. -/
theorem classifyHttpStatus_cases :
    ∀ s : Int,
      (classifyHttpStatus s = .delivered ↔ 200 ≤ s ∧ s < 300) ∧
      (classifyHttpStatus s = .retry ↔ s = 408 ∨ s = 429 ∨ 500 ≤ s) ∧
      (classifyHttpStatus s = .dead ↔
        ¬(200 ≤ s ∧ s < 300) ∧ ¬(s = 408 ∨ s = 429 ∨ 500 ≤ s)) ∧
      (isRetryableStatus s = true ↔ classifyHttpStatus s = .retry) := by
  intro s
  unfold classifyHttpStatus
  by_cases h2xx : s ≥ 200 ∧ s < 300
  · have hnr : isRetryableStatus s = false := by
      rw [← Bool.not_eq_true, isRetryableStatus_eq_true_iff]
      omega
    simp [h2xx, hnr]
    omega
  · by_cases hr : isRetryableStatus s = true
    · have := (isRetryableStatus_eq_true_iff s).mp hr
      simp [h2xx, hr]
      constructor
      · omega
      · omega
    · have hnr := Bool.not_eq_true _ |>.mp hr
      have := (isRetryableStatus_eq_true_iff s).not.mp (by simp [hnr])
      simp [h2xx, hnr]
      constructor
      · omega
      · omega

/-- C5: every attempt record built by `buildAttempt` has exactly one of
`response_status` and `error_kind` non-null; the invariant does not extend
to `response_body` and `response_headers` — a body-read failure yields a
record with `response_status` set and `response_body` null, and a record
with `response_status` set and null headers/body still satisfies the
invariant. -/
theorem buildAttempt_exactly_one_status_or_error :
    (∀ (result : DeliveryResult) (leased : LeasedEvent) (sAt fAt : String),
      exactlyOneStatusOrError (buildAttempt result leased sAt fAt)) ∧
    ((buildAttempt (.ok { status := 200, headers := [], bodyText := none })
        leasedFix "t0" "t1").response_status = some 200 ∧
     (buildAttempt (.ok { status := 200, headers := [], bodyText := none })
        leasedFix "t0" "t1").response_body = none) ∧
    exactlyOneStatusOrError
      { started_at := "t0", finished_at := "t1", request_headers := [],
        request_body := "", response_status := some 200,
        response_headers := none, response_body := none,
        error_kind := none, error_message := none } := by
  refine ⟨?_, by decide, by decide⟩
  intro result leased sAt fAt
  cases result with
  | ok r => left; simp [buildAttempt]
  | err e => right; simp [buildAttempt]

/-- C10: on the response path `buildAttempt` always sets `response_headers`
to the (possibly empty) record of exactly the string-valued response header
entries — never null, even when the body read failed — and `response_body`
is exactly the body-read result (null on read failure). -/
theorem buildAttempt_response_headers_total :
    ∀ (r : HttpResponse) (leased : LeasedEvent) (sAt fAt : String),
      (∃ hs, (buildAttempt (.ok r) leased sAt fAt).response_headers = some hs ∧
        ∀ k v, (k, v) ∈ hs ↔ (k, HeaderValue.str v) ∈ r.headers) ∧
      (buildAttempt (.ok r) leased sAt fAt).response_body = r.bodyText := by
  intro r leased sAt fAt
  refine ⟨⟨responseStringHeaders r.headers, rfl, ?_⟩, rfl⟩
  intro k v
  unfold responseStringHeaders
  rw [List.mem_filterMap]
  constructor
  · rintro ⟨⟨k', hv⟩, hmem, heq⟩
    cases hv with
    | str s =>
      simp only [Option.some.injEq, Prod.mk.injEq] at heq
      obtain ⟨hk, hs⟩ := heq
      rw [← hk, ← hs]
      exact hmem
    | other => simp at heq
  · intro hmem
    exact ⟨(k, .str v), hmem, rfl⟩

/-- C1 counterexample: (a) a 303 response makes `deliverOne` report
`outcome = dead` although the final status is neither a 4xx other than
408/429 nor a retryable failure at the attempt cap; (b) a `ResponseError`
transport failure carrying a non-retryable status makes it report
`outcome = retry` with `retryable = false`. -/
theorem deliverOne_outcome_claim_counterexample :
    ((deliverOneReport cfgFix leasedFix (fun _ => .response resp303) "t0" "t1").outcome
        = .dead ∧
     (deliverOneReport cfgFix leasedFix (fun _ => .response resp303) "t0" "t1").attempt.response_status
        = some 303 ∧
     ¬(400 ≤ (303 : Int) ∧ (303 : Int) ≤ 499 ∧ (303 : Int) ≠ 408 ∧ (303 : Int) ≠ 429) ∧
     (deliverOneReport cfgFix leasedFix (fun _ => .response resp303) "t0" "t1").attempt.error_kind
        = none) ∧
    ((deliverOneReport cfgFix leasedFix (fun _ => .responseError resp404) "t0" "t1").outcome
        = .retry ∧
     (deliverOneReport cfgFix leasedFix (fun _ => .responseError resp404) "t0" "t1").retryable
        = false) := by
  decide

/-- C1 amended: for every report emitted by `deliverOne`,
`delivered` implies the final status is 2xx; `retry` implies the final
result is a retryable-status response (and then `retryable = true`) or a
failure below the attempt cap, in which case `retryable` is true unless the
failure is a `ResponseError` carrying a non-retryable status; `dead`
implies the final response status is outside 2xx and non-retryable (which
includes 1xx/3xx as well as 4xx other than 408/429), or the final result is
a failure (retryable or not) with `event.attempts + 1 ≥ maxAttempts`. -/
theorem deliverOne_outcome_invariants :
    (∀ (result : DeliveryResult) (attempts maxAttempts : Int),
      (resolveOutcome result attempts maxAttempts = .delivered →
        ∃ r, result = .ok r ∧ 200 ≤ r.status ∧ r.status < 300) ∧
      (resolveOutcome result attempts maxAttempts = .retry →
        (∃ r, result = .ok r ∧ isRetryableStatus r.status = true ∧
           isRetryableResult result = true) ∨
        (∃ e, result = .err e ∧ attempts + 1 < maxAttempts ∧
           (isRetryableResult result = true ∨
            ∃ r, e = .ResponseError r ∧ isRetryableStatus r.status = false))) ∧
      (resolveOutcome result attempts maxAttempts = .dead →
        (∃ r, result = .ok r ∧ ¬(200 ≤ r.status ∧ r.status < 300) ∧
           isRetryableStatus r.status = false) ∨
        (∃ e, result = .err e ∧ attempts + 1 ≥ maxAttempts))) ∧
    (∀ (config : DispatcherConfigService) (leased : LeasedEvent)
       (target : Nat → AttemptOutcome) (sAt fAt : String),
      (deliverOneReport config leased target sAt fAt).outcome
        = resolveOutcome (deliveryFinalResult config target)
            leased.event.attempts config.maxAttempts ∧
      (deliverOneReport config leased target sAt fAt).retryable
        = isRetryableResult (deliveryFinalResult config target)) := by
  constructor
  · intro result attempts maxAttempts
    refine ⟨?_, ?_, ?_⟩
    · intro h
      cases result with
      | ok r =>
        refine ⟨r, rfl, ?_⟩
        simp only [resolveOutcome, classifyHttpStatus] at h
        split_ifs at h with h1 h2
        exact ⟨h1.1, h1.2⟩
      | err e =>
        simp only [resolveOutcome] at h
        split_ifs at h
    · intro h
      cases result with
      | ok r =>
        left
        simp only [resolveOutcome, classifyHttpStatus] at h
        split_ifs at h with h1 h2
        refine ⟨r, rfl, h2, ?_⟩
        simp [isRetryableResult, h2]
      | err e =>
        right
        simp only [resolveOutcome] at h
        split_ifs at h with h1
        refine ⟨e, rfl, by omega, ?_⟩
        cases e with
        | TimeoutException => left; rfl
        | RequestError => left; rfl
        | ResponseError r =>
          cases hs : isRetryableStatus r.status with
          | true =>
            left
            simp [isRetryableResult, deliveryErrorAsFailure, isRetryableFailure, hs]
          | false => right; exact ⟨r, rfl, hs⟩
    · intro h
      cases result with
      | ok r =>
        left
        simp only [resolveOutcome, classifyHttpStatus] at h
        split_ifs at h with h1 h2
        exact ⟨r, rfl, h1, Bool.not_eq_true _ |>.mp h2⟩
      | err e =>
        right
        simp only [resolveOutcome] at h
        split_ifs at h with h1
        · exact ⟨e, rfl, h1⟩
  · intro config leased target sAt fAt
    exact ⟨rfl, rfl⟩

/-- C1 witness: the amended invariant applied to the delivered case at a
concrete 200 result. -/
theorem deliverOne_outcome_invariants_witness :
    ∃ r, DeliveryResult.ok resp200 = .ok r ∧ 200 ≤ r.status ∧ r.status < 300 :=
  (deliverOne_outcome_invariants.1 (.ok resp200) 0 10).1 (by decide)

/-- C2: whenever the settled final result of a delivery is the timeout
sentinel and the leased event is at the lifetime attempt cap, the emitted
report has `outcome = dead` and `retryable = true` simultaneously, with
`error_kind = timeout` and `error_message = "Request timed out"`. -/
theorem timeout_at_cap_report :
    ∀ (config : DispatcherConfigService) (leased : LeasedEvent)
      (target : Nat → AttemptOutcome) (sAt fAt : String),
      deliveryFinalResult config target = .err .TimeoutException →
      leased.event.attempts + 1 ≥ config.maxAttempts →
      (deliverOneReport config leased target sAt fAt).outcome = .dead ∧
      (deliverOneReport config leased target sAt fAt).retryable = true ∧
      (deliverOneReport config leased target sAt fAt).attempt.error_kind
        = some .timeout ∧
      (deliverOneReport config leased target sAt fAt).attempt.error_message
        = some "Request timed out" := by
  intro config leased target sAt fAt hres hcap
  refine ⟨?_, ?_, ?_, ?_⟩ <;>
    simp [deliverOneReport, hres, resolveOutcome, isRetryableResult,
      buildAttempt, classifyError, hcap]

/-- C2 witness: timeout at the attempt cap with `immediateRetryMax = 0`,
`maxAttempts = 3`, `attempts = 2` and a target that never responds. -/
theorem timeout_at_cap_report_witness :
    (deliverOneReport cfgTimeoutCap leasedAtCap (fun _ => .timeout) "t0" "t1").outcome = .dead ∧
    (deliverOneReport cfgTimeoutCap leasedAtCap (fun _ => .timeout) "t0" "t1").retryable = true ∧
    (deliverOneReport cfgTimeoutCap leasedAtCap (fun _ => .timeout) "t0" "t1").attempt.error_kind
      = some .timeout ∧
    (deliverOneReport cfgTimeoutCap leasedAtCap (fun _ => .timeout) "t0" "t1").attempt.error_message
      = some "Request timed out" :=
  timeout_at_cap_report cfgTimeoutCap leasedAtCap (fun _ => .timeout) "t0" "t1"
    (by decide) (by decide)

/-- C3 counterexample: the spec's jitter band admits an 800 ms wait before
the first retry (base 1000, jitter −200), but the engine's retry schedule
is deterministic and always waits exactly 1000 ms before retry 1 — no
jitter is applied to delivery retries. -/
theorem retry_wait_jitter_counterexample :
    retryWaitMs 1 = 1000 ∧ specRetryWaitBand 1 800 ∧ (800 : Nat) ≠ retryWaitMs 1 := by
  decide

/-- C3 amended: after a retryable failure or retryable status the engine
waits exactly `1000 · 2^(k−1)` ms before retry `k` (no jitter); the
`±20%` uniform-jitter rule (`sleepWithJitter`) applies to the dispatcher's
poll-interval sleep, whose possible durations are exactly the integer band
`[base − ⌊0.2·base⌋, base + ⌊0.2·base⌋]`. -/
theorem retry_wait_deterministic :
    (∀ k : Nat, 1 ≤ k → retryWaitMs k = 1000 * 2 ^ (k - 1)) ∧
    (∀ (baseMs : Nat) (d : Int),
      sleepWithJitterCanSleep baseMs d ↔
        (baseMs : Int) - (baseMs / 5 : Nat) ≤ d ∧ d ≤ (baseMs : Int) + (baseMs / 5 : Nat)) := by
  constructor
  · intro k _
    rfl
  · intro baseMs d
    unfold sleepWithJitterCanSleep
    constructor
    · rintro ⟨j, h1, h2, rfl⟩
      omega
    · intro h
      exact ⟨d - baseMs, by omega, by omega, by omega⟩

/-- C3 witness: the first retry waits 1000 ms, and the poll sleep at base
1000 can sleep 1100 ms. -/
theorem retry_wait_deterministic_witness :
    retryWaitMs 1 = 1000 * 2 ^ (1 - 1) ∧ sleepWithJitterCanSleep 1000 1100 :=
  ⟨retry_wait_deterministic.1 1 (by decide),
   (retry_wait_deterministic.2 1000 1100).mpr (by decide)⟩

/-- C4: one delivery makes at most `immediateRetryMax + 1` target calls;
and with `immediateRetryMax = 2`, `maxAttempts = 5`, `attempts = 0` and a
target answering 500 on every call, exactly 3 calls are made and the one
report has `outcome = retry`, `retryable = true`,
`response_status = some 500`, with the last retryable-status response (the
third call, body "2") captured as the final result. -/
theorem delivery_attempt_cap_and_500_exhaustion :
    (∀ (target : Nat → AttemptOutcome) (retries i : Nat),
      (runDelivery target retries i).2 ≤ retries + 1) ∧
    (deliveryCallCount cfg500 target500 = 3 ∧
     (deliverOneReport cfg500 leasedFix target500 "t0" "t1").outcome = .retry ∧
     (deliverOneReport cfg500 leasedFix target500 "t0" "t1").retryable = true ∧
     (deliverOneReport cfg500 leasedFix target500 "t0" "t1").attempt.response_status
        = some 500 ∧
     (deliverOneReport cfg500 leasedFix target500 "t0" "t1").attempt.response_body
        = some "2") := by
  exact ⟨fun target => runDelivery_calls_le target, by decide⟩

/-- C6: a store call (`lease`/`report`) is retried only on `ApiError` with a
transient code (`rate_limited`, `database`, `internal`), for at most 5 extra
attempts (six calls total) with exponential backoff delays 100·2^(k−1) ms,
while any other error — `NetworkError`, `ParseError`, or `ApiError` with a
non-transient code — is surfaced after a single call. -/
theorem store_transient_retry :
    (∀ (A : Type) (call : Nat → Except CoreError A),
      (withTransientRetry call).2.1 ≤ 6) ∧
    (∀ (A : Type) (call : Nat → Except CoreError A) (e : CoreError),
      call 0 = .error e → transientRetryWhile e = false →
      withTransientRetry call = (.error e, 1, [])) ∧
    (∀ (A : Type) (call : Nat → Except CoreError A),
      (∀ i, i ≤ 5 → ∃ err, call i = .error (.ApiError err) ∧
        isTransientApiError err = true) →
      (withTransientRetry call).2.1 = 6 ∧
      (withTransientRetry call).1 = call 5 ∧
      (withTransientRetry call).2.2 = [100, 200, 400, 800, 1600]) ∧
    (∀ e : CoreError, transientRetryWhile e = true ↔
      ∃ a, e = .ApiError a ∧
        (a.code = .rate_limited ∨ a.code = .database ∨ a.code = .internal)) := by
  refine ⟨?_, ?_, ?_, ?_⟩
  · intro A call
    exact transientRetryLoop_calls_le call 5 0
  · intro A call e h0 hnt
    simp [withTransientRetry, transientRetryLoop, h0, hnt]
  · intro A call hall
    obtain ⟨e0, hc0, ht0⟩ := hall 0 (by omega)
    obtain ⟨e1, hc1, ht1⟩ := hall 1 (by omega)
    obtain ⟨e2, hc2, ht2⟩ := hall 2 (by omega)
    obtain ⟨e3, hc3, ht3⟩ := hall 3 (by omega)
    obtain ⟨e4, hc4, ht4⟩ := hall 4 (by omega)
    obtain ⟨e5, hc5, ht5⟩ := hall 5 (by omega)
    refine ⟨?_, ?_, ?_⟩ <;>
      simp [withTransientRetry, transientRetryLoop, transientRetryWhile,
        hc0, ht0, hc1, ht1, hc2, ht2, hc3, ht3, hc4, ht4, hc5,
        transientRetryDelayMs, scheduleExponentialDelay]
  · intro e
    cases e with
    | ApiError a =>
      simp only [transientRetryWhile, isTransientApiError, Bool.or_eq_true,
        beq_iff_eq]
      constructor
      · intro h
        exact ⟨a, rfl, by tauto⟩
      · rintro ⟨a2, ha, hc⟩
        injection ha with ha
        rw [ha]
        tauto
    | NetworkError m =>
      simp [transientRetryWhile]
    | ParseError m =>
      simp [transientRetryWhile]

/-- C6 witness: a `NetworkError` surfaces after one call; an unbroken run of
`rate_limited` errors makes six calls with the exponential delay list. -/
theorem store_transient_retry_witness :
    withTransientRetry storeCallNetworkFail = (.error (.NetworkError "net down"), 1, []) ∧
    (withTransientRetry storeCallRateLimited).2.1 = 6 ∧
    (withTransientRetry storeCallRateLimited).2.2 = [100, 200, 400, 800, 1600] := by
  refine ⟨store_transient_retry.2.1 Unit storeCallNetworkFail
    (.NetworkError "net down") rfl rfl, ?_, ?_⟩
  · exact (store_transient_retry.2.2.1 Unit storeCallRateLimited
      (fun i _ => ⟨{ code := .rate_limited, message := "slow down" }, rfl, rfl⟩)).1
  · exact (store_transient_retry.2.2.1 Unit storeCallRateLimited
      (fun i _ => ⟨{ code := .rate_limited, message := "slow down" }, rfl, rfl⟩)).2.2

/-- C7: the outgoing target request is a POST to `target_url` with the event
payload as body and the event headers; a `Content-Type` present in the
event headers takes precedence, and only when absent is the default
`application/json` appended. -/
theorem outgoing_request_shape :
    ∀ leased : LeasedEvent,
      (outReq leased).method = "POST" ∧
      (outReq leased).url = leased.target_url ∧
      (outReq leased).body = some leased.event.payload ∧
      (hasHeader leased.event.headers "content-type" = true →
        (outReq leased).headers = leased.event.headers) ∧
      (hasHeader leased.event.headers "content-type" = false →
        (outReq leased).headers
          = leased.event.headers ++ [("Content-Type", "application/json")]) := by
  intro leased
  refine ⟨rfl, rfl, rfl, ?_, ?_⟩ <;> intro h <;>
    simp [outReq, requestBodyText, requestSetHeaders, requestPost, h]

/-- C7 witness: an event with a content-type header keeps its headers
unchanged; one without gets the default appended. -/
theorem outgoing_request_shape_witness :
    (outReq leasedFix).headers = leasedFix.event.headers ∧
    (outReq leasedNoContentType).headers
      = leasedNoContentType.event.headers ++ [("Content-Type", "application/json")] :=
  ⟨(outgoing_request_shape leasedFix).2.2.2.1 (by decide),
   (outgoing_request_shape leasedNoContentType).2.2.2.2 (by decide)⟩

/-- C8 counterexample: an environment with `FLUXPOINT_DISPATCH_BATCH_SIZE=0`
loads successfully with `batchSize = 0 < 1` — no lower-bound validation is
performed at startup, contrary to the claim that out-of-bounds values are
rejected. -/
theorem config_bounds_counterexample :
    configFromEnv envBatchZero = .ok loadedBatchZero ∧
    loadedBatchZero.batchSize < 1 :=
  ⟨rfl, by decide⟩

/-- C8 amended: config loading fails whenever a required variable
(`FLUXPOINT_WORKER_ID` or `FLUXPOINT_RUST_API_BASE_URL`) is missing or a
numeric variable is set to a non-integer value; but no bound validation is
performed — a config whose `batchSize` is 0 (outside the documented ≥1
range) loads successfully. -/
theorem config_required_and_integer_validation :
    (∀ env : String → Option String, env "FLUXPOINT_WORKER_ID" = none →
      isErr (configFromEnv env) = true) ∧
    (∀ env : String → Option String, env "FLUXPOINT_RUST_API_BASE_URL" = none →
      isErr (configFromEnv env) = true) ∧
    (∀ (env : String → Option String) (name s : String),
      name ∈ numericEnvNames → env name = some s → parseInteger s = none →
      isErr (configFromEnv env) = true) ∧
    (configFromEnv envBatchZero = .ok loadedBatchZero ∧
      loadedBatchZero.batchSize < 1) := by
  refine ⟨?_, ?_, ?_, rfl, by decide⟩
  · intro env h
    simp [configFromEnv, configString, h, isErr, Bind.bind, Except.bind]
  · intro env h
    cases hW : env "FLUXPOINT_WORKER_ID" with
    | none => simp [configFromEnv, configString, hW, isErr, Bind.bind, Except.bind]
    | some w => simp [configFromEnv, configString, hW, h, isErr, Bind.bind, Except.bind]
  · intro env name s hmem henv hparse
    cases hres : configFromEnv env with
    | error e => simp [isErr]
    | ok cfg =>
      exfalso
      unfold configFromEnv at hres
      obtain ⟨wid, hW, hres⟩ := except_bind_ok hres
      obtain ⟨burl, hB, hres⟩ := except_bind_ok hres
      obtain ⟨pollv, hPoll, hres⟩ := except_bind_ok hres
      obtain ⟨batchv, hBatch, hres⟩ := except_bind_ok hres
      obtain ⟨concv, hConc, hres⟩ := except_bind_ok hres
      obtain ⟨leasev, hLease, hres⟩ := except_bind_ok hres
      obtain ⟨reqv, hReq, hres⟩ := except_bind_ok hres
      obtain ⟨irmv, hIrm, hres⟩ := except_bind_ok hres
      obtain ⟨mav, hMa, hres⟩ := except_bind_ok hres
      simp only [numericEnvNames, List.mem_cons, List.not_mem_nil, or_false] at hmem
      rcases hmem with rfl | rfl | rfl | rfl | rfl | rfl | rfl
      · simp [configIntegerWithDefault, henv, hparse] at hPoll
      · simp [configIntegerWithDefault, henv, hparse] at hBatch
      · simp [configIntegerWithDefault, henv, hparse] at hConc
      · simp [configIntegerWithDefault, henv, hparse] at hLease
      · simp [configIntegerWithDefault, henv, hparse] at hReq
      · simp [configIntegerWithDefault, henv, hparse] at hIrm
      · simp [configIntegerWithDefault, henv, hparse] at hMa

/-- C8 witness: the empty environment fails to load, and a non-integer
batch size fails to load. -/
theorem config_required_and_integer_validation_witness :
    isErr (configFromEnv envEmpty) = true ∧
    isErr (configFromEnv envBadInteger) = true :=
  ⟨config_required_and_integer_validation.1 envEmpty rfl,
   config_required_and_integer_validation.2.2.1 envBadInteger
     "FLUXPOINT_DISPATCH_BATCH_SIZE" "nope" (by decide) (by decide) (by decide)⟩

end Fluxpoint
